import Mathlib

/-!
Shallow embedding of `src/node-client/RChain.py` (an RChain node client:
a CLI dispatcher over two gRPC stubs, plus a one-route Tornado web UI).

Conventions of the embedding:
* The two gRPC stubs (`ReplStub`, `DiagnosticsStub`) are external services;
  they are modelled by an `RpcEnv` of fallible functions (`Except` for a
  raised transport/remote exception).
* Every RPC invocation is recorded in a trace (`List RpcCall`) so that
  claims about which calls are attempted can be stated.
* `RequestHandler.write` calls accumulate in a buffer (`List String`), in
  the order the source issues them.
* Python exceptions (gRPC failures, `IndexError` on a missing positional
  argument, `NameError` on an unbound local) abort the surrounding
  function; they are modelled by explicit error values.
-/

namespace RChainClient

/-- `rnode.CmdRequest(line=...)`: request carrying the code text to run. -/
structure CmdRequest where
  line : String
deriving DecidableEq, Repr

/-- `rnode.EvalRequest(fileName=...)`: request carrying a file path. -/
structure EvalRequest where
  fileName : String
deriving DecidableEq, Repr

/-- A REPL response; the source only reads its `.output` field. -/
structure ReplResponse where
  output : String
deriving DecidableEq, Repr

/-- One recorded RPC invocation (`replCh.Run`, `replCh.Eval`,
`diagCh.ListPeers`). -/
inductive RpcCall where
  | run (req : CmdRequest)
  | eval (req : EvalRequest)
  | listPeers
deriving DecidableEq, Repr

/-- The remote node, seen through the two stubs.  A call either returns a
response or raises (transport error / remote fault), carried as a
`String` message in the `Except.error` case. -/
structure RpcEnv where
  run : CmdRequest → Except String ReplResponse
  eval : EvalRequest → Except String ReplResponse
  listPeers : Except String (List String)

/-- Python `str.replace(old, new)` on character lists: scan left to right,
replace each (non-overlapping) occurrence of `old`.  Structural recursion
on a fuel bounded by the list length so that concrete instances evaluate
by `decide`.  `old` is assumed nonempty (the source only calls it with
`' | '`). -/
def replaceFuel (old new : List Char) : Nat → List Char → List Char
  | 0, s => s
  | _ + 1, [] => []
  | fuel + 1, c :: cs =>
    if old.isPrefixOf (c :: cs) then
      new ++ replaceFuel old new fuel (cs.drop (old.length - 1))
    else
      c :: replaceFuel old new fuel cs

/-- Embedding of Python `s.replace(old, new)` for nonempty `old`. -/
def pyReplace (s old new : String) : String :=
  ⟨replaceFuel old.data new.data s.data.length s.data⟩

namespace RNodeUI

/-- The `markup` class attribute of `RNodeUI` (lines 67-96 of the source),
verbatim. -/
def markup : String :=
  "\n    <!doctype html>\n    <html>\n    <head><title>rnode diagnostics</title></head>\n    <body>\n    <h1>rnode</h1>\n    <address>\n    <b>pre-release</b> for the\n    <a href=\"https://developer.rchain.coop/\">RChain Developer</a>\n    community\n    </address>\n\n    <h2>Peers</h2>\n    <ul>\n    <!-- PART -->\n    </ul>\n\n    <h2>Rholang and RSpace</h2>\n    <form action=\"\" method=\"post\">\n    <textarea name=\"rho1\" cols=\"40\" rows=\"10\"><!-- PART --></textarea>\n    <br />\n    <input type=\"submit\" value=\"Run\" />\n    </form>\n\n    <pre id=\"store\">\n    <!-- PART -->\n    </pre>\n    </body>\n    </html>\n    "

/-- `self.markup.split('<!-- PART -->')` in `RNodeUI.get`. -/
def markupParts : List String := markup.splitOn "<!-- PART -->"

/-- First part of the split markup (`mtop1` in the source). -/
def mtop1 : String := markupParts.getD 0 ""

/-- Second part of the split markup (`mform2` in the source). -/
def mform2 : String := markupParts.getD 1 ""

/-- Third part of the split markup (`mf3` in the source). -/
def mf3 : String := markupParts.getD 2 ""

/-- Fourth part of the split markup (`m4` in the source). -/
def m4 : String := markupParts.getD 3 ""

/-- The handler's mutable strings `self.rholang_code` and
`self.rspace_contents` (the spec's `lastSubmittedCode` and
`lastStoreContents`). -/
structure Session where
  rholang_code : String
  rspace_contents : String
deriving DecidableEq, Repr

/-- `RNodeUI.initialize`: both session strings start empty. -/
def initSession : Session :=
  { rholang_code := "", rspace_contents := "" }

/-- The sequence of `self.write` calls a complete successful `get` issues:
the template head, one `"<li>%s</li>" % peer` item per peer in order, then
`mform2`, the current code, `mf3`, the current store contents, `m4`. -/
def renderedPage (peers : List String) (code store : String) : List String :=
  mtop1 :: (peers.map fun peer => "<li>" ++ peer ++ "</li>") ++
    [mform2, code, mf3, store, m4]

/-- `RNodeUI.get` (lines 107-119): returns the RPC trace, the buffer of
`self.write` calls issued, and the raised exception if `ListPeers` failed.
Note `self.write(mtop1)` executes before the `ListPeers` call, so on
failure the buffer already holds the template head. -/
def get (s : Session) (env : RpcEnv) :
    List RpcCall × List String × Option String :=
  match env.listPeers with
  | .error e => ([.listPeers], [mtop1], some e)
  | .ok peers =>
    ([.listPeers], renderedPage peers s.rholang_code s.rspace_contents, none)

/-- `RNodeUI.post` (lines 121-129): store the posted code into
`self.rholang_code`, call `Run`, store the transformed output into
`self.rspace_contents`, then re-render via `self.get()`.  Returns the RPC
trace, the handler state after the request, the write buffer, and the
raised exception if any RPC failed. -/
def post (s : Session) (rho1 : String) (env : RpcEnv) :
    List RpcCall × Session × List String × Option String :=
  let line := rho1
  let s1 : Session := { s with rholang_code := line }
  let req : CmdRequest := { line := line }
  match env.run req with
  | .error e => ([.run req], s1, [], some e)
  | .ok resp =>
    let s2 : Session :=
      { s1 with rspace_contents := pyReplace resp.output " | " " |\n" }
    let r := get s2 env
    (.run req :: r.1, s2, r.2.1, r.2.2)

/-- Modelled from the spec: the HTTP framework (Tornado, outside this
repository) turns an uncaught handler exception into an error response,
discarding the handler's buffered writes — the spec's transport-failure
policy ("render nothing and surface the error").  The GET response is the
buffered page on success, an error response otherwise. -/
def getResponse (s : Session) (env : RpcEnv) : Except String (List String) :=
  match get s env with
  | (_, _, some e) => .error e
  | (_, writes, none) => .ok writes

/-- Modelled from the spec: same transport-failure policy for POST.
Returns the handler state after the request together with the response. -/
def postResponse (s : Session) (rho1 : String) (env : RpcEnv) :
    Session × Except String (List String) :=
  match post s rho1 env with
  | (_, s2, _, some e) => (s2, .error e)
  | (_, s2, writes, none) => (s2, .ok writes)

/-- One HTTP request against the UI server. -/
inductive Request where
  | get
  | post (rho1 : String)
deriving DecidableEq, Repr

/-- One request as the server actually serves it: the HTTP framework
(Tornado, outside this repository) constructs a fresh `RNodeUI` instance
for every incoming request and calls `initialize` on it (lines 61-65),
so the handler state reaching `get`/`post` is `initSession` — both
session strings reset to the empty string — whatever any earlier request
stored.  Returns the handler instance's state when the request completes
(the instance, and with it that state, is then discarded) and the
response. -/
def serveRequest (env : RpcEnv) :
    Request → Session × Except String (List String)
  | .get => (initSession, getResponse initSession env)
  | .post rho1 => postResponse initSession rho1 env

end RNodeUI

/-- The three modes of `main`, in the order its `if`/`elif`/`else` chain
tests for them (lines 43-54). -/
inductive Mode where
  | ui
  | inlineEval
  | fileEval
deriving DecidableEq, Repr

/-- Mode selection, exactly the source's chain:
`'-w' in argv`, else `'-c' in argv`, else the file branch. -/
def selectMode (argv : List String) : Mode :=
  if "-w" ∈ argv then .ui
  else if "-c" ∈ argv then .inlineEval
  else .fileEval

/-- Uncaught exceptions `main` can raise. -/
inductive MainErr where
  /-- the `IndexError` from `argv[1]` (or `argv[-1]` on an empty `argv`):
  the required positional argument is missing; the spec names this
  failure `InvalidUsage`. -/
  | invalidUsage
  /-- the `NameError` from `print(output)` when the local `output` was
  never assigned. -/
  | nameError
  /-- a gRPC call raised; the message. -/
  | rpc (e : String)
deriving DecidableEq, Repr

/-- How an invocation of `main` ends. -/
inductive MainOutcome where
  /-- `IOLoop.current().start()` blocks; the lines printed so far. -/
  | blocked (printed : List String)
  /-- `main` returned normally; the lines printed. -/
  | normal (printed : List String)
  /-- an uncaught exception ended the process after printing `printed`. -/
  | failed (printed : List String) (e : MainErr)
deriving DecidableEq, Repr

/-- The final `print(output, file=stdout)` (line 55), shared by all
branches: `output` holds `some` value only in the branches that assigned
it; printing an unbound local raises `NameError`. -/
def printOutput (printed : List String) : Option String → MainOutcome
  | none => .failed printed .nameError
  | some out => .normal (printed ++ [out])

/-- `main(argv, stdout, IOLoop, insecure_channel, web_port, host, port)`
(lines 33-55).  `env` stands for the two stubs built on the channel;
`loopReturns` models whether `IOLoop.current().start()` ever returns
(under normal operation it does not).  Returns the outcome and the trace
of RPC calls `main` itself issued. -/
def main (argv : List String) (env : RpcEnv) (web_port : Nat)
    (loopReturns : Bool) : MainOutcome × List RpcCall :=
  match selectMode argv with
  | .ui =>
    let url := "http://0.0.0.0:" ++ toString web_port
    let printed := ["rnode web UI at " ++ url]
    if loopReturns then (printOutput printed none, [])
    else (.blocked printed, [])
  | .inlineEval =>
    match argv.getLast? with
    | none => (.failed [] .invalidUsage, [])
    | some line =>
      let req : CmdRequest := { line := line }
      match env.run req with
      | .error e => (.failed [] (.rpc e), [.run req])
      | .ok resp => (printOutput [] (some resp.output), [.run req])
  | .fileEval =>
    match argv[1]? with
    | none => (.failed [] .invalidUsage, [])
    | some fileName =>
      let req : EvalRequest := { fileName := fileName }
      match env.eval req with
      | .error e => (.failed [] (.rpc e), [.eval req])
      | .ok resp => (printOutput [] (some resp.output), [.eval req])

/-- A node on which every RPC call succeeds (for concrete instances). -/
def envOk : RpcEnv :=
  { run := fun _ => .ok { output := "OK" }
    eval := fun _ => .ok { output := "OK" }
    listPeers := .ok ["peer1", "peer2"] }

/-- A node whose `Run` and `Eval` calls raise (for concrete instances). -/
def envRunFail : RpcEnv :=
  { run := fun _ => .error "UNAVAILABLE"
    eval := fun _ => .error "UNAVAILABLE"
    listPeers := .ok ["peer1"] }

/-- A node whose `ListPeers` call raises (for concrete instances). -/
def envPeersFail : RpcEnv :=
  { run := fun _ => .ok { output := "OK" }
    eval := fun _ => .ok { output := "OK" }
    listPeers := .error "UNAVAILABLE" }

end RChainClient

namespace RChainClient

open RNodeUI

/-- Claim C1 (refuted by the code; the spec states the intent): a
successful POST does commit the submitted code and the transformed
output into its own handler's session strings, and its own response
renders them — but a GET request issued immediately afterwards is served
by a freshly constructed handler whose `initialize` has reset both
strings, so it renders an empty code area and empty store contents, not
the values that POST stored; nothing persists across requests, let alone
for the life of the server process. -/
theorem C1_session_resets_between_requests :
    (serveRequest envOk (.post "x!(1)")).1 =
      { rholang_code := "x!(1)",
        rspace_contents := pyReplace "OK" " | " " |\n" } ∧
    (serveRequest envOk (.post "x!(1)")).2 =
      .ok (renderedPage ["peer1", "peer2"] "x!(1)"
        (pyReplace "OK" " | " " |\n")) ∧
    serveRequest envOk .get =
      (initSession, .ok (renderedPage ["peer1", "peer2"] "" "")) ∧
    renderedPage ["peer1", "peer2"] "" "" ≠
      renderedPage ["peer1", "peer2"] "x!(1)" (pyReplace "OK" " | " " |\n") := by
  refine ⟨?_, ?_, ?_, ?_⟩
  · simp [RNodeUI.serveRequest, RNodeUI.postResponse, RNodeUI.post,
      RNodeUI.get, initSession, envOk]
  · simp [RNodeUI.serveRequest, RNodeUI.postResponse, RNodeUI.post,
      RNodeUI.get, initSession, envOk]
  · simp [RNodeUI.serveRequest, RNodeUI.getResponse, RNodeUI.get,
      initSession, envOk]
  · simp [renderedPage]

/-- Claim C2: if `ListPeers` raises during a GET, the response is an
error response carrying that failure; no page is rendered in the
response. -/
theorem C2_get_failure_renders_nothing (s : Session) (env : RpcEnv)
    (e : String) (hp : env.listPeers = .error e) :
    getResponse s env = .error e := by
  simp [RNodeUI.getResponse, RNodeUI.get, hp]

/-- Concrete instance of C2. -/
theorem C2_witness :
    getResponse initSession envPeersFail = .error "UNAVAILABLE" :=
  C2_get_failure_renders_nothing initSession envPeersFail "UNAVAILABLE" rfl

/-- Claim C3: if `Run` raises during a POST, the handler has already
overwritten `rholang_code` with the submitted code, `rspace_contents`
still holds its value from before the POST, exactly the one `Run` call
was attempted, and the failure surfaces as an error response. -/
theorem C3_post_run_failure (s : Session) (rho1 : String) (env : RpcEnv)
    (e : String) (hrun : env.run { line := rho1 } = .error e) :
    post s rho1 env =
      ([.run { line := rho1 }],
        { rholang_code := rho1, rspace_contents := s.rspace_contents }, [],
        some e) ∧
    (postResponse s rho1 env).2 = .error e := by
  simp [post, postResponse, hrun]

/-- Concrete instance of C3. -/
theorem C3_witness :
    post initSession "x!(1)" envRunFail =
      ([.run { line := "x!(1)" }],
        { rholang_code := "x!(1)",
          rspace_contents := initSession.rspace_contents }, [],
        some "UNAVAILABLE") ∧
    (postResponse initSession "x!(1)" envRunFail).2 = .error "UNAVAILABLE" :=
  C3_post_run_failure initSession "x!(1)" envRunFail "UNAVAILABLE" rfl

/-- Claim C4: with `-c` present and `-w` absent, the code submitted to
`Run` as `CmdRequest.line` is the last element of the argument sequence,
wherever `-c` appears and whatever follows it. -/
theorem C4_inline_mode_submits_last_argument (argv : List String)
    (env : RpcEnv) (wp : Nat) (lr : Bool) (line : String)
    (hc : "-c" ∈ argv) (hw : "-w" ∉ argv)
    (hlast : argv.getLast? = some line) :
    (main argv env wp lr).2 = [.run { line := line }] := by
  have hsel : selectMode argv = .inlineEval := by simp [selectMode, hw, hc]
  cases hr : env.run { line := line } <;> simp [main, hsel, hlast, hr]

/-- Concrete instance of C4: the argument after `-c` is ignored, the
last argument is submitted. -/
theorem C4_witness :
    (main ["prog", "-c", "foo", "new x in \x7b x!(1+1) \x7d"] envOk 8888
        false).2 =
      [.run { line := "new x in \x7b x!(1+1) \x7d" }] :=
  C4_inline_mode_submits_last_argument
    ["prog", "-c", "foo", "new x in \x7b x!(1+1) \x7d"] envOk 8888 false
    "new x in \x7b x!(1+1) \x7d" (by decide) (by decide) (by decide)

/-- Claim C5: mode selection is first-match in the order `-w`, then
`-c`, then file mode. -/
theorem C5_mode_precedence (argv1 argv2 argv3 : List String)
    (h1 : "-w" ∈ argv1)
    (h2w : "-w" ∉ argv2) (h2c : "-c" ∈ argv2)
    (h3w : "-w" ∉ argv3) (h3c : "-c" ∉ argv3) :
    selectMode argv1 = .ui ∧ selectMode argv2 = .inlineEval ∧
    selectMode argv3 = .fileEval := by
  refine ⟨?_, ?_, ?_⟩ <;> simp [selectMode, h1, h2w, h2c, h3w, h3c]

/-- Concrete instance of C5: `-w` wins even with `-c` present. -/
theorem C5_witness :
    selectMode ["prog", "-c", "x", "-w"] = .ui ∧
    selectMode ["prog", "-c", "foo", "bar"] = .inlineEval ∧
    selectMode ["prog", "file.rho"] = .fileEval :=
  C5_mode_precedence ["prog", "-c", "x", "-w"] ["prog", "-c", "foo", "bar"]
    ["prog", "file.rho"] (by decide) (by decide) (by decide) (by decide)
    (by decide)

/-- Claim C6: the string stored into `rspace_contents` by a successful
POST is the `Run` output with every occurrence of " | " replaced by
" |\n"; in particular on the spec's example output. -/
theorem C6_store_transform (s : Session) (rho1 : String) (env : RpcEnv)
    (out : ReplResponse) (hrun : env.run { line := rho1 } = .ok out) :
    (post s rho1 env).2.1.rspace_contents =
      pyReplace out.output " | " " |\n" ∧
    pyReplace "@\x7bx\x7d!(2) | for(...) \x7b Nil \x7d | for(...) \x7b Nil \x7d"
        " | " " |\n" =
      "@\x7bx\x7d!(2) |\nfor(...) \x7b Nil \x7d |\nfor(...) \x7b Nil \x7d" := by
  constructor
  · simp [post, hrun]
  · decide

/-- Concrete instance of C6. -/
theorem C6_witness :
    (post initSession "x!(1)" envOk).2.1.rspace_contents =
      pyReplace "OK" " | " " |\n" ∧
    pyReplace "@\x7bx\x7d!(2) | for(...) \x7b Nil \x7d | for(...) \x7b Nil \x7d"
        " | " " |\n" =
      "@\x7bx\x7d!(2) |\nfor(...) \x7b Nil \x7d |\nfor(...) \x7b Nil \x7d" :=
  C6_store_transform initSession "x!(1)" envOk { output := "OK" } rfl

/-- Claim C7: with no `-w`, no `-c` and no second argument, `main` fails
with the missing-argument error (the spec's `InvalidUsage`; the raised
`IndexError` from `argv[1]`), nothing is printed, and no RPC call is
attempted. -/
theorem C7_missing_file_path (argv : List String) (env : RpcEnv) (wp : Nat)
    (lr : Bool) (hw : "-w" ∉ argv) (hc : "-c" ∉ argv)
    (h1 : argv[1]? = none) :
    main argv env wp lr = (.failed [] .invalidUsage, []) := by
  have hsel : selectMode argv = .fileEval := by simp [selectMode, hw, hc]
  simp [main, hsel, h1]

/-- Concrete instance of C7: `['prog']`. -/
theorem C7_witness :
    main ["prog"] envOk 8888 false = (.failed [] .invalidUsage, []) :=
  C7_missing_file_path ["prog"] envOk 8888 false (by decide) (by decide) rfl

/-- Claim C8: `['prog', '-w']` with web port 8888 prints exactly the one
line "rnode web UI at http://0.0.0.0:8888" before the run loop blocks;
in inline-eval and file-eval modes a successful invocation prints exactly
one line, the response's output field. -/
theorem C8_output_lines (env : RpcEnv)
    (argv2 : List String) (env2 : RpcEnv) (wp2 : Nat) (lr2 : Bool)
    (line : String) (out2 : ReplResponse)
    (argv3 : List String) (env3 : RpcEnv) (wp3 : Nat) (lr3 : Bool)
    (fn : String) (out3 : ReplResponse)
    (h2w : "-w" ∉ argv2) (h2c : "-c" ∈ argv2)
    (h2l : argv2.getLast? = some line)
    (h2r : env2.run { line := line } = .ok out2)
    (h3w : "-w" ∉ argv3) (h3c : "-c" ∉ argv3)
    (h3f : argv3[1]? = some fn)
    (h3e : env3.eval { fileName := fn } = .ok out3) :
    (main ["prog", "-w"] env 8888 false).1 =
      .blocked ["rnode web UI at http://0.0.0.0:8888"] ∧
    (main argv2 env2 wp2 lr2).1 = .normal [out2.output] ∧
    (main argv3 env3 wp3 lr3).1 = .normal [out3.output] := by
  refine ⟨?_, ?_, ?_⟩
  · have hsel : selectMode ["prog", "-w"] = .ui := by decide
    simp [main, hsel]
    decide
  · have hsel : selectMode argv2 = .inlineEval := by simp [selectMode, h2w, h2c]
    simp [main, hsel, h2l, h2r, printOutput]
  · have hsel : selectMode argv3 = .fileEval := by simp [selectMode, h3w, h3c]
    simp [main, hsel, h3f, h3e, printOutput]

/-- Concrete instance of C8. -/
theorem C8_witness :
    (main ["prog", "-w"] envOk 8888 false).1 =
      .blocked ["rnode web UI at http://0.0.0.0:8888"] ∧
    (main ["prog", "-c", "code"] envOk 8888 false).1 = .normal ["OK"] ∧
    (main ["prog", "file.rho"] envOk 8888 false).1 = .normal ["OK"] :=
  C8_output_lines envOk ["prog", "-c", "code"] envOk 8888 false "code"
    { output := "OK" } ["prog", "file.rho"] envOk 8888 false "file.rho"
    { output := "OK" } (by decide) (by decide) rfl rfl (by decide)
    (by decide) rfl rfl

/-- Claim C9: a POST whose `Run` call succeeds issues exactly the two
RPC calls `Run` then `ListPeers` (the POST handler re-renders through
the GET handler), both session strings are updated, and the response is
the freshly rendered page on `ListPeers` success but an error response
on `ListPeers` failure — even though `Run` succeeded and the session was
already updated. -/
theorem C9_post_runs_two_rpcs (s : Session) (rho1 : String) (env : RpcEnv)
    (out : ReplResponse) (hrun : env.run { line := rho1 } = .ok out) :
    (post s rho1 env).1 = [.run { line := rho1 }, .listPeers] ∧
    (post s rho1 env).2.1 =
      { rholang_code := rho1,
        rspace_contents := pyReplace out.output " | " " |\n" } ∧
    (postResponse s rho1 env).2 =
      (env.listPeers).map
        (fun peers =>
          renderedPage peers rho1 (pyReplace out.output " | " " |\n")) := by
  cases hp : env.listPeers <;>
    simp [RNodeUI.post, RNodeUI.get, RNodeUI.postResponse, hrun, hp,
      Except.map]

/-- Concrete instance of C9, on a node whose `ListPeers` fails: `Run`
succeeded, both strings were committed, yet the POST response aborts. -/
theorem C9_witness :
    (post initSession "x!(1)" envPeersFail).1 =
      [.run { line := "x!(1)" }, .listPeers] ∧
    (post initSession "x!(1)" envPeersFail).2.1 =
      { rholang_code := "x!(1)",
        rspace_contents := pyReplace "OK" " | " " |\n" } ∧
    (postResponse initSession "x!(1)" envPeersFail).2 =
      (envPeersFail.listPeers).map
        (fun peers =>
          renderedPage peers "x!(1)" (pyReplace "OK" " | " " |\n")) :=
  C9_post_runs_two_rpcs initSession "x!(1)" envPeersFail { output := "OK" }
    rfl

/-- Claim C10: in UI mode the final `print(output)` runs only if the run
loop's `start()` returns, and in that branch the local `output` was never
assigned, so it raises `NameError`; under normal operation the loop never
returns and `main` blocks after the URL line, avoiding the error. -/
theorem C10_ui_print_requires_loop_return (argv : List String)
    (env : RpcEnv) (wp : Nat) (hw : "-w" ∈ argv) :
    (main argv env wp true).1 =
      .failed ["rnode web UI at " ++ ("http://0.0.0.0:" ++ toString wp)]
        .nameError ∧
    (main argv env wp false).1 =
      .blocked ["rnode web UI at " ++ ("http://0.0.0.0:" ++ toString wp)] := by
  have hsel : selectMode argv = .ui := by simp [selectMode, hw]
  simp [main, hsel, printOutput]

/-- Concrete instance of C10. -/
theorem C10_witness :
    (main ["prog", "-w"] envOk 8888 true).1 =
      .failed ["rnode web UI at " ++ ("http://0.0.0.0:" ++ toString 8888)]
        .nameError ∧
    (main ["prog", "-w"] envOk 8888 false).1 =
      .blocked ["rnode web UI at " ++ ("http://0.0.0.0:" ++ toString 8888)] :=
  C10_ui_print_requires_loop_return ["prog", "-w"] envOk 8888 (by decide)

end RChainClient
